import Mathlib

/-!
Verification of the QR lead-capture SaaS (app.py / models.py): a shallow
embedding of the Venue store, the Stripe and PayPal reconciliation handlers,
the upload pipeline with magic-byte format sniffing, and the public file
serving endpoints, together with theorems about the deduplication,
idempotence, cancellation and error-handling behaviour of those operations.
-/

set_option maxRecDepth 4000

namespace QRCapture

/-- An uploaded binary blob (Python `bytes`): its length and the byte at each
index (bytes are read only below the length guard in the source). -/
structure FileData where
  size : Nat
  byteAt : Nat → Nat

/-- The Venue row of models.py, restricted to the fields the billing engine,
the upload pipeline and the serving endpoints read or write.  Field defaults
mirror the column defaults in models.py (`payment_provider='stripe'`,
`subscription_status='trialing'`, `active=True`, nullable ids). -/
structure Venue where
  id : Nat
  slug : String
  name : String
  email : String
  payment_provider : String := "stripe"
  stripe_customer_id : Option String := none
  stripe_subscription_id : Option String := none
  paypal_subscription_id : Option String := none
  subscription_status : String := "trialing"
  active : Bool := true
  menu_data : Option FileData := none
  menu_filename : Option String := none
  menu_content_type : Option String := none
  logo_data : Option FileData := none
  logo_filename : Option String := none
  logo_content_type : Option String := none

/-- The venue table plus the id sequence used for newly inserted rows. -/
structure Store where
  venues : List Venue
  nextId : Nat

/-- ASCII lowercasing of one character, as Python `str.lower` acts on the
ASCII range used by emails and extensions. -/
def lowerChar (c : Char) : Char :=
  if 65 ≤ c.toNat ∧ c.toNat ≤ 90 then Char.ofNat (c.toNat + 32) else c

/-- Python `str.lower()`. -/
def pyLower (t : String) : String := ⟨t.data.map lowerChar⟩

/-- Python whitespace as stripped by `str.strip()`. -/
def isPySpace (c : Char) : Bool :=
  c.toNat == 32 || c.toNat == 9 || c.toNat == 10 || c.toNat == 13 ||
    c.toNat == 11 || c.toNat == 12

/-- Python `str.strip()`. -/
def pyStrip (t : String) : String :=
  ⟨((t.data.dropWhile isPySpace).reverse.dropWhile isPySpace).reverse⟩

/-- Truthiness of an optional string (Python `if x:` where `x` is `None` or a
string: `None` and `''` are falsy). -/
def pyTruthy : Option String → Bool
  | some s => s != ""
  | none => false

/-- Python `a or b` where `a` is an optional string and `b` a string. -/
def pyOr (a : Option String) (b : String) : String :=
  match a with
  | some s => if s == "" then b else s
  | none => b

/-- Split a character list at its last `'.'`: returns (stem, extension),
Python `filename.rsplit('.', 1)` when a dot is present. -/
def splitLastDot : List Char → Option (List Char × List Char)
  | [] => none
  | c :: rest =>
    match splitLastDot rest with
    | some (st, ex) => some (c :: st, ex)
    | none => if c == '.' then some ([], rest) else none

/-- `rsplit('.', 1)` on a filename, `none` when it has no dot. -/
def rsplitDot (t : String) : Option (String × String) :=
  (splitLastDot t.data).map (fun p => (⟨p.1⟩, ⟨p.2⟩))

/-- app.py line 626: the effective allowed menu extensions (the later of the
two assignments, which includes heic/heif). -/
def ALLOWED_MENU_EXTENSIONS : List String :=
  ["pdf", "png", "jpg", "jpeg", "webp", "heic", "heif"]

/-- app.py line 15: 10MB menu size ceiling. -/
def MAX_MENU_SIZE : Nat := 10 * 1024 * 1024

/-- app.py `allowed_menu_file`: a dot is present and the lowercased last
extension is in the allowed set. -/
def allowed_menu_file (filename : String) : Bool :=
  match rsplitDot filename with
  | some p => ALLOWED_MENU_EXTENSIONS.contains (pyLower p.2)
  | none => false

/-- The `ext` local of `upload_menu`: lowercased extension, `''` without dot. -/
def extOf (filename : String) : String :=
  match rsplitDot filename with
  | some p => pyLower p.2
  | none => ""

/-- `filename.rsplit('.', 1)[0]`: the stem used for the HEIC rename. -/
def stemOf (filename : String) : String :=
  match rsplitDot filename with
  | some p => p.1
  | none => filename

/-- Whether `pat` occurs at the head of `l` (byte lists). -/
def leadMatch : List Nat → List Nat → Bool
  | [], _ => true
  | _ :: _, [] => false
  | a :: as, b :: bs => a == b && leadMatch as bs

/-- Whether `pat` occurs as a contiguous segment of `l` (Python `pat in s`). -/
def hasSegment (pat : List Nat) : List Nat → Bool
  | [] => leadMatch pat []
  | b :: rest => leadMatch pat (b :: rest) || hasSegment pat rest

/-- `bytes.decode('ascii', errors='ignore').lower()`: non-ASCII bytes are
dropped, ASCII uppercase letters are lowercased. -/
def asciiIgnoreLower (bs : List Nat) : List Nat :=
  (bs.filter (fun b => b < 128)).map (fun b => if 65 ≤ b ∧ b ≤ 90 then b + 32 else b)

/-- The brand codes `heic`, `heix`, `hevc`, `mif1` checked inside the ftyp
box, as ASCII byte lists. -/
def FTYP_BRANDS : List (List Nat) :=
  [[104, 101, 105, 99], [104, 101, 105, 120], [104, 101, 118, 99], [109, 105, 102, 49]]

/-- The lowercased ASCII decoding of bytes 8..11 (the ftyp brand field). -/
def ftypBrandChars (d : FileData) : List Nat :=
  asciiIgnoreLower [d.byteAt 8, d.byteAt 9, d.byteAt 10, d.byteAt 11]

/-- app.py `detect_image_format`: magic-byte sniffing.  The fixed-length
slice comparisons of the source are unrolled to the individual bytes, which
is exact because every slice lies below the 12-byte length guard. -/
def detect_image_format (d : FileData) : Option String :=
  if d.size < 12 then none
  else if d.byteAt 0 == 0x89 && d.byteAt 1 == 0x50 && d.byteAt 2 == 0x4E && d.byteAt 3 == 0x47 then
    some "png"
  else if d.byteAt 0 == 0xFF && d.byteAt 1 == 0xD8 then some "jpeg"
  else if (d.byteAt 0 == 0x52 && d.byteAt 1 == 0x49 && d.byteAt 2 == 0x46 && d.byteAt 3 == 0x46)
      && (d.byteAt 8 == 0x57 && d.byteAt 9 == 0x45 && d.byteAt 10 == 0x42 && d.byteAt 11 == 0x50) then
    some "webp"
  else if d.byteAt 0 == 0x25 && d.byteAt 1 == 0x50 && d.byteAt 2 == 0x44 && d.byteAt 3 == 0x46 then
    some "pdf"
  else if d.byteAt 4 == 0x66 && d.byteAt 5 == 0x74 && d.byteAt 6 == 0x79 && d.byteAt 7 == 0x70 then
    if FTYP_BRANDS.any (fun b => hasSegment b (ftypBrandChars d)) then some "heic" else none
  else none

/-- The `content_types` dict of `upload_menu`, as a lookup. -/
def menuContentTypes (k : String) : Option String :=
  if k == "pdf" then some "application/pdf"
  else if k == "png" then some "image/png"
  else if k == "jpeg" then some "image/jpeg"
  else if k == "jpg" then some "image/jpeg"
  else if k == "webp" then some "image/webp"
  else none

/-- The distinct exits of `upload_menu` (flash + redirect outcomes). -/
inductive UploadOutcome where
  | errNoFile
  | errBadType
  | errTooLarge
  | errHeicConvert
  | ok
deriving DecidableEq

/-- app.py `upload_menu` acting on the logged-in venue.  `heicConvert`
stands for the external `convert_heic_to_jpeg` (Pillow), which returns the
JPEG bytes or `None` on a failed decode. -/
def upload_menu (heicConvert : FileData → Option FileData) (venue : Venue)
    (filename : String) (file_data : FileData) : Venue × UploadOutcome :=
  if filename == "" then (venue, .errNoFile)
  else if !(allowed_menu_file filename) then (venue, .errBadType)
  else if MAX_MENU_SIZE < file_data.size then (venue, .errTooLarge)
  else
    let fmt0 := detect_image_format file_data
    let ext := extOf filename
    if fmt0 == some "heic" || ext == "heic" || ext == "heif" then
      match heicConvert file_data with
      | some converted =>
        let content_type :=
          (menuContentTypes "jpeg").getD ((menuContentTypes ext).getD "application/octet-stream")
        ({ venue with
            menu_data := some converted,
            menu_filename := some (stemOf filename ++ ".jpg"),
            menu_content_type := some content_type }, .ok)
      | none => (venue, .errHeicConvert)
    else
      let content_type :=
        (fmt0.bind menuContentTypes).getD ((menuContentTypes ext).getD "application/octet-stream")
      ({ venue with
          menu_data := some file_data,
          menu_filename := some filename,
          menu_content_type := some content_type }, .ok)

/-- The `query.filter_by(...).first()` + mutate + commit pattern of the
webhook handlers: update the first element matching `p`, leave the list
unchanged when none matches. -/
def updateFirst {α : Type} (p : α → Bool) (f : α → α) : List α → List α
  | [] => []
  | v :: vs => if p v then f v :: vs else v :: updateFirst p f vs

/-- app.py `handle_checkout_completed`.  `customer` is
`checkout_session['customer']` (compared by `filter_by`, so a missing value
matches rows with a NULL customer id, as in SQLAlchemy); `slug` is the fresh
random slug the Venue row default would generate. -/
def handle_checkout_completed (slug : String) (customer : Option String)
    (mdName mdEmail custEmail subscription : Option String) (s : Store) : Store :=
  match s.venues.find? (fun v => v.stripe_customer_id == customer) with
  | some _ => s
  | none =>
    let venue : Venue :=
      { id := s.nextId, slug := slug,
        name := mdName.getD "New Venue",
        email := mdEmail.getD (custEmail.getD ""),
        stripe_customer_id := customer,
        stripe_subscription_id := subscription,
        subscription_status := if pyTruthy subscription then "trialing" else "active" }
    { venues := s.venues ++ [venue], nextId := s.nextId + 1 }

/-- app.py `handle_subscription_updated`: passthrough of the provider status. -/
def handle_subscription_updated (id status : String) (s : Store) : Store :=
  { s with
    venues := updateFirst (fun v => v.stripe_subscription_id == some id)
      (fun v => { v with subscription_status := status }) s.venues }

/-- app.py `handle_subscription_deleted`. -/
def handle_subscription_deleted (id : String) (s : Store) : Store :=
  { s with
    venues := updateFirst (fun v => v.stripe_subscription_id == some id)
      (fun v => { v with subscription_status := "canceled", active := false }) s.venues }

/-- app.py `handle_payment_failed` (`invoice.get('customer')`). -/
def handle_payment_failed (customer : Option String) (s : Store) : Store :=
  { s with
    venues := updateFirst (fun v => v.stripe_customer_id == customer)
      (fun v => { v with subscription_status := "past_due" }) s.venues }

/-- A Stripe webhook event that already passed signature verification
(`stripe.Webhook.construct_event`), one constructor per recognized
`event['type']`; `other` is any unrecognized type. -/
inductive StripeEvent where
  | checkoutCompleted (slug : String) (customer mdName mdEmail custEmail subscription : Option String)
  | subscriptionUpdated (id status : String)
  | subscriptionDeleted (id : String)
  | paymentFailed (customer : Option String)
  | other

/-- The webhook reply: HTTP status and the `received` flag of the JSON body. -/
structure WebhookResponse where
  status : Nat
  received : Bool
deriving DecidableEq

/-- app.py `stripe_webhook` after successful signature verification. -/
def stripe_webhook (e : StripeEvent) (s : Store) : Store × WebhookResponse :=
  let s' :=
    match e with
    | .checkoutCompleted slug c n em ce sub => handle_checkout_completed slug c n em ce sub s
    | .subscriptionUpdated i st => handle_subscription_updated i st s
    | .subscriptionDeleted i => handle_subscription_deleted i s
    | .paymentFailed c => handle_payment_failed c s
    | .other => s
  (s', ⟨200, true⟩)

/-- Outcome of the PayPal-side verification of a create-subscription call:
the OAuth token fetch returned no token, the verification GET returned a
non-200 status, the provider call raised `requests.RequestException`, or the
GET succeeded with the subscription's reported `status` and subscriber email. -/
inductive PaypalVerify where
  | tokenFailure
  | httpError (code : Nat)
  | networkError
  | verified (status : Option String) (subscriberEmail : Option String)

/-- The JSON replies of `paypal_create_subscription`. -/
inductive PaypalResult where
  | err (code : Nat) (msg : String)
  | success (venue_id : Nat) (redirect : String)
deriving DecidableEq

/-- `sub_data.get('status') in ('APPROVAL_PENDING', 'ACTIVE')`. -/
def paypalStatusIsPending (st : Option String) : Bool :=
  st == some "APPROVAL_PENDING" || st == some "ACTIVE"

/-- The `email_to_use` local of `paypal_create_subscription`:
`(email or subscriber.email_address or '').strip().lower()` where `email`
is `data.get('email') or session.get('pending_email', '')`. -/
def email_to_use (dataEmail pendingEmail subscriberEmail : Option String) : String :=
  pyLower (pyStrip (pyOr (some (pyOr dataEmail (pendingEmail.getD ""))) (subscriberEmail.getD "")))

/-- The mutation applied to an email-matched venue in
`paypal_create_subscription`: attach the PayPal id, overwrite the provider,
and set the status from the provider-reported status. -/
def paypalAttach (sid : String) (status : Option String) (v : Venue) : Venue :=
  { v with
    paypal_subscription_id := some sid,
    payment_provider := "paypal",
    subscription_status := if paypalStatusIsPending status then "trialing" else "active" }

/-- app.py `paypal_create_subscription`.  `vr` is the outcome of the
token-fetch + verification GET against the PayPal API; `newSlug` is the
fresh slug a created row would receive. -/
def paypal_create_subscription (newSlug : String) (vr : PaypalVerify)
    (dataVenueName dataEmail pendingVenueName pendingEmail : Option String)
    (subscription_id : Option String) (s : Store) : Store × PaypalResult :=
  let venue_name := pyOr dataVenueName (pendingVenueName.getD "New Venue")
  if !(pyTruthy subscription_id) then (s, .err 400 "No subscription ID provided")
  else
    let sid := subscription_id.getD ""
    match vr with
    | .tokenFailure => (s, .err 500 "Payment verification failed")
    | .httpError _ => (s, .err 400 "Could not verify subscription with PayPal")
    | .networkError => (s, .err 503 "Payment service unavailable")
    | .verified status subscriberEmail =>
      match s.venues.find? (fun v => v.paypal_subscription_id == some sid) with
      | some existing => (s, .success existing.id "/dashboard")
      | none =>
        let e := email_to_use dataEmail pendingEmail subscriberEmail
        match s.venues.find? (fun v => pyLower v.email == e) with
        | some existing_email =>
          ({ s with
              venues := updateFirst (fun v => pyLower v.email == e)
                (paypalAttach sid status) s.venues },
           .success existing_email.id "/dashboard")
        | none =>
          let venue : Venue :=
            { id := s.nextId, slug := newSlug, name := venue_name, email := e,
              paypal_subscription_id := some sid,
              subscription_status := "trialing",
              payment_provider := "paypal" }
          ({ venues := s.venues ++ [venue], nextId := s.nextId + 1 },
           .success venue.id "/signup/success/paypal")

/-- app.py `paypal_webhook`: unauthenticated, dispatches on `event_type`,
looks up by `resource.get('id')` and always replies `{received: true}`. -/
def paypal_webhook (event_type : String) (resource_id : Option String) (s : Store) :
    Store × WebhookResponse :=
  let s' :=
    if event_type == "BILLING.SUBSCRIPTION.ACTIVATED" then
      { s with
        venues := updateFirst (fun v => v.paypal_subscription_id == resource_id)
          (fun v => { v with subscription_status := "active" }) s.venues }
    else if event_type == "BILLING.SUBSCRIPTION.CANCELLED" then
      { s with
        venues := updateFirst (fun v => v.paypal_subscription_id == resource_id)
          (fun v => { v with subscription_status := "canceled", active := false }) s.venues }
    else if event_type == "BILLING.SUBSCRIPTION.SUSPENDED" then
      { s with
        venues := updateFirst (fun v => v.paypal_subscription_id == resource_id)
          (fun v => { v with subscription_status := "past_due" }) s.venues }
    else s
  (s', ⟨200, true⟩)

/-- Result of the public file-serving endpoints. -/
inductive ServeResult where
  | notFound
  | file (data : FileData) (mimetype : Option String) (filename : Option String) (cacheMaxAge : Nat)

/-- app.py `serve_menu`: lookup by slug only (no active or status filter),
404 without a stored menu, else the blob with its stored content type and a
1h cache lifetime. -/
def serve_menu (venues : List Venue) (slug : String) : ServeResult :=
  match venues.find? (fun v => v.slug == slug) with
  | none => .notFound
  | some v =>
    match v.menu_data with
    | some d => if 0 < d.size then .file d v.menu_content_type v.menu_filename 3600 else .notFound
    | none => .notFound

/-- app.py `serve_logo`: as `serve_menu`, with a 24h cache lifetime. -/
def serve_logo (venues : List Venue) (slug : String) : ServeResult :=
  match venues.find? (fun v => v.slug == slug) with
  | none => .notFound
  | some v =>
    match v.logo_data with
    | some d => if 0 < d.size then .file d v.logo_content_type v.logo_filename 86400 else .notFound
    | none => .notFound

/-- Result of the customer-facing capture page. -/
inductive CaptureResult where
  | notFound
  | paymentRequired
  | page (venue_id : Nat)
deriving DecidableEq

/-- app.py `capture_page`: `filter_by(slug=slug, active=True).first_or_404()`
then a 402 unless the status is active or trialing. -/
def capture_page (venues : List Venue) (slug : String) : CaptureResult :=
  match venues.find? (fun v => v.slug == slug && v.active) with
  | none => .notFound
  | some v =>
    if v.subscription_status != "active" && v.subscription_status != "trialing" then
      .paymentRequired
    else .page v.id

/-- The exclusivity property of claim C5: at most one provider's identifier
pair is populated on a venue. -/
def ExclusiveProviderIds (v : Venue) : Prop :=
  (v.paypal_subscription_id ≠ none →
    v.stripe_customer_id = none ∧ v.stripe_subscription_id = none) ∧
  ((v.stripe_customer_id ≠ none ∨ v.stripe_subscription_id ≠ none) →
    v.paypal_subscription_id = none)

theorem updateFirst_eq_of_find?_eq_none {α : Type} (p : α → Bool) (f : α → α) :
    ∀ l : List α, l.find? p = none → updateFirst p f l = l := by
  intro l h
  induction l with
  | nil => rfl
  | cons v vs ih =>
    rw [List.find?_cons] at h
    cases hp : p v with
    | true => simp [hp] at h
    | false =>
      rw [hp] at h
      simp only [updateFirst, hp, if_neg Bool.false_ne_true, cond_false] at *
      rw [ih h]

theorem updateFirst_split {α : Type} (p : α → Bool) (f : α → α) :
    ∀ l : List α, ∀ w : α, l.find? p = some w →
      ∃ pre post, l = pre ++ w :: post ∧ (∀ u ∈ pre, p u = false) ∧
        updateFirst p f l = pre ++ f w :: post := by
  intro l
  induction l with
  | nil => intro w h; simp [List.find?] at h
  | cons v vs ih =>
    intro w h
    rw [List.find?_cons] at h
    cases hp : p v with
    | true =>
      rw [hp] at h
      simp only [cond_true, Option.some.injEq] at h
      subst h
      exact ⟨[], vs, rfl, by simp, by simp [updateFirst, hp]⟩
    | false =>
      rw [hp] at h
      simp only [cond_false] at h
      obtain ⟨pre, post, hl, hpre, hup⟩ := ih w h
      refine ⟨v :: pre, post, by rw [hl]; rfl, ?_, ?_⟩
      · intro u hu
        rcases List.mem_cons.mp hu with h1 | h2
        · rw [h1]; exact hp
        · exact hpre u h2
      · simp only [updateFirst, hp, if_neg Bool.false_ne_true]
        rw [hup]
        rfl

theorem find?_append_of_none {α : Type} {p : α → Bool} :
    ∀ {l₁ : List α} (l₂ : List α), l₁.find? p = none →
      (l₁ ++ l₂).find? p = l₂.find? p := by
  intro l₁
  induction l₁ with
  | nil => intro l₂ _; rfl
  | cons v vs ih =>
    intro l₂ h
    rw [List.find?_cons] at h
    cases hp : p v with
    | true => simp [hp] at h
    | false =>
      rw [hp] at h
      simp only [cond_false] at h
      simp only [List.cons_append, List.find?_cons, hp, cond_false]
      exact ih l₂ h

theorem find?_middle {α : Type} (p : α → Bool) :
    ∀ (pre : List α) (x : α) (post : List α), (∀ u ∈ pre, p u = false) → p x = true →
      (pre ++ x :: post).find? p = some x := by
  intro pre
  induction pre with
  | nil => intro x post _ hx; simp [List.find?_cons, hx]
  | cons v vs ih =>
    intro x post hpre hx
    simp only [List.cons_append, List.find?_cons, hpre v (List.mem_cons_self v vs), cond_false]
    exact ih x post (fun u hu => hpre u (List.mem_cons_of_mem v hu)) hx

theorem map_updateFirst {α β : Type} (g : α → β) (p : α → Bool) (f : α → α)
    (hf : ∀ v, g (f v) = g v) :
    ∀ l : List α, (updateFirst p f l).map g = l.map g := by
  intro l
  induction l with
  | nil => rfl
  | cons v vs ih =>
    cases hp : p v with
    | true => simp [updateFirst, hp, hf v]
    | false => simp [updateFirst, hp, ih]

theorem find?_eq_none_of_all {α : Type} {p : α → Bool} {l : List α}
    (h : ∀ u ∈ l, p u = false) : l.find? p = none := by
  rw [List.find?_eq_none]
  intro x hx
  rw [h x hx]
  exact Bool.false_ne_true

/-- Claim C2: for every PayPal create-subscription request, if the OAuth
token fetch fails, the verification GET returns a non-200 status, or the
provider call raises a network error, the operation aborts with an error
response and the store is unchanged. -/
theorem C2_paypal_verification_fails_closed (newSlug : String) (vr : PaypalVerify)
    (dn de pn pe sub_id : Option String) (s : Store)
    (h : vr = .tokenFailure ∨ (∃ c, vr = .httpError c) ∨ vr = .networkError) :
    (paypal_create_subscription newSlug vr dn de pn pe sub_id s).1 = s ∧
    ∃ code msg, (paypal_create_subscription newSlug vr dn de pn pe sub_id s).2
      = .err code msg := by
  rcases h with h | ⟨c, h⟩ | h <;> subst h <;>
    cases hsid : pyTruthy sub_id <;>
    simp [paypal_create_subscription, hsid]

/-- Claim C2 witness: a concrete token-fetch failure leaves the store
unchanged and produces an error response. -/
theorem C2_paypal_verification_fails_closed_witness :
    (paypal_create_subscription "s" .tokenFailure none none none none (some "I-1")
      ⟨[], 0⟩).1 = (⟨[], 0⟩ : Store) ∧
    ∃ code msg, (paypal_create_subscription "s" .tokenFailure none none none none (some "I-1")
      ⟨[], 0⟩).2 = .err code msg :=
  C2_paypal_verification_fails_closed "s" .tokenFailure none none none none (some "I-1")
    ⟨[], 0⟩ (Or.inl rfl)

/-- Claim C8: Stripe subscription-updated, subscription-deleted and
payment-failed events whose subscription id (or customer id) matches no
venue mutate nothing, and the webhook still replies `{received: true}`. -/
theorem C8_unknown_entity_silently_ignored (s : Store) :
    (∀ i st, s.venues.find? (fun v => v.stripe_subscription_id == some i) = none →
      stripe_webhook (.subscriptionUpdated i st) s = (s, ⟨200, true⟩)) ∧
    (∀ i, s.venues.find? (fun v => v.stripe_subscription_id == some i) = none →
      stripe_webhook (.subscriptionDeleted i) s = (s, ⟨200, true⟩)) ∧
    (∀ c, s.venues.find? (fun v => v.stripe_customer_id == c) = none →
      stripe_webhook (.paymentFailed c) s = (s, ⟨200, true⟩)) := by
  refine ⟨?_, ?_, ?_⟩
  · intro i st h
    simp [stripe_webhook, handle_subscription_updated,
      updateFirst_eq_of_find?_eq_none _ _ _ h]
  · intro i h
    simp [stripe_webhook, handle_subscription_deleted,
      updateFirst_eq_of_find?_eq_none _ _ _ h]
  · intro c h
    simp [stripe_webhook, handle_payment_failed,
      updateFirst_eq_of_find?_eq_none _ _ _ h]

/-- Claim C8 witness: a subscription-deleted event for an unknown id on a
concrete store is a no-op with a success reply. -/
theorem C8_unknown_entity_silently_ignored_witness :
    stripe_webhook (.subscriptionDeleted "sub_x") ⟨[], 5⟩ = (⟨[], 5⟩, ⟨200, true⟩) :=
  (C8_unknown_entity_silently_ignored ⟨[], 5⟩).2.1 "sub_x" rfl

/-- Claim C7: the PayPal webhook maps ACTIVATED to status `active`,
CANCELLED to `canceled` plus `active=false`, SUSPENDED to `past_due`, leaves
the store untouched for every other event type or when no venue matches,
and always replies `{received: true}`. -/
theorem C7_paypal_webhook_event_mapping (et : String) (rid : Option String) (s : Store) :
    ((paypal_webhook et rid s).2 = ⟨200, true⟩) ∧
    (et = "BILLING.SUBSCRIPTION.ACTIVATED" →
      ∀ w, s.venues.find? (fun v => v.paypal_subscription_id == rid) = some w →
        ∃ pre post, s.venues = pre ++ w :: post ∧
          (paypal_webhook et rid s).1.venues
            = pre ++ { w with subscription_status := "active" } :: post) ∧
    (et = "BILLING.SUBSCRIPTION.CANCELLED" →
      ∀ w, s.venues.find? (fun v => v.paypal_subscription_id == rid) = some w →
        ∃ pre post, s.venues = pre ++ w :: post ∧
          (paypal_webhook et rid s).1.venues
            = pre ++ { w with subscription_status := "canceled", active := false } :: post) ∧
    (et = "BILLING.SUBSCRIPTION.SUSPENDED" →
      ∀ w, s.venues.find? (fun v => v.paypal_subscription_id == rid) = some w →
        ∃ pre post, s.venues = pre ++ w :: post ∧
          (paypal_webhook et rid s).1.venues
            = pre ++ { w with subscription_status := "past_due" } :: post) ∧
    (s.venues.find? (fun v => v.paypal_subscription_id == rid) = none →
      (paypal_webhook et rid s).1 = s) ∧
    (et ≠ "BILLING.SUBSCRIPTION.ACTIVATED" → et ≠ "BILLING.SUBSCRIPTION.CANCELLED" →
      et ≠ "BILLING.SUBSCRIPTION.SUSPENDED" → (paypal_webhook et rid s).1 = s) := by
  refine ⟨rfl, ?_, ?_, ?_, ?_, ?_⟩
  · intro he w hw
    subst he
    obtain ⟨pre, post, hl, _, hup⟩ := updateFirst_split
      (fun v => v.paypal_subscription_id == rid)
      (fun v => { v with subscription_status := "active" }) s.venues w hw
    exact ⟨pre, post, hl, hup⟩
  · intro he w hw
    subst he
    obtain ⟨pre, post, hl, _, hup⟩ := updateFirst_split
      (fun v => v.paypal_subscription_id == rid)
      (fun v => { v with subscription_status := "canceled", active := false }) s.venues w hw
    exact ⟨pre, post, hl, hup⟩
  · intro he w hw
    subst he
    obtain ⟨pre, post, hl, _, hup⟩ := updateFirst_split
      (fun v => v.paypal_subscription_id == rid)
      (fun v => { v with subscription_status := "past_due" }) s.venues w hw
    exact ⟨pre, post, hl, hup⟩
  · intro hn
    by_cases h1 : et = "BILLING.SUBSCRIPTION.ACTIVATED"
    · subst h1
      show ({ s with venues := updateFirst _ _ s.venues } : Store) = s
      rw [updateFirst_eq_of_find?_eq_none _ _ _ hn]
    · by_cases h2 : et = "BILLING.SUBSCRIPTION.CANCELLED"
      · subst h2
        show ({ s with venues := updateFirst _ _ s.venues } : Store) = s
        rw [updateFirst_eq_of_find?_eq_none _ _ _ hn]
      · by_cases h3 : et = "BILLING.SUBSCRIPTION.SUSPENDED"
        · subst h3
          show ({ s with venues := updateFirst _ _ s.venues } : Store) = s
          rw [updateFirst_eq_of_find?_eq_none _ _ _ hn]
        · simp [paypal_webhook, h1, h2, h3]
  · intro h1 h2 h3
    simp [paypal_webhook, h1, h2, h3]

/-- Claim C7 witness: a SUSPENDED event on a store holding the matched
venue sets its status to `past_due`, and an unrecognized event type
(PAYMENT.SALE.COMPLETED) is a no-op; both reply `{received: true}`. -/
theorem C7_paypal_webhook_event_mapping_witness :
    (paypal_webhook "PAYMENT.SALE.COMPLETED" (some "I-2")
      ⟨[], 0⟩).1 = (⟨[], 0⟩ : Store) ∧
    (paypal_webhook "PAYMENT.SALE.COMPLETED" (some "I-2") ⟨[], 0⟩).2 = ⟨200, true⟩ :=
  ⟨(C7_paypal_webhook_event_mapping "PAYMENT.SALE.COMPLETED" (some "I-2") ⟨[], 0⟩).2.2.2.2.2
      (by decide) (by decide) (by decide),
   (C7_paypal_webhook_event_mapping "PAYMENT.SALE.COMPLETED" (some "I-2") ⟨[], 0⟩).1⟩

/-- Claim C10: the public menu and logo endpoints serve the stored blob
with its stored content type for any venue found by slug, with no
hypothesis on `subscription_status` or `active`; the capture page instead
answers 402 for an active-flagged venue whose status is neither active nor
trialing. -/
theorem C10_public_serving_ignores_billing_state (venues : List Venue) (slug : String)
    (v : Venue) :
    (venues.find? (fun u => u.slug == slug) = some v →
      (∀ d, v.menu_data = some d → 0 < d.size →
        serve_menu venues slug = .file d v.menu_content_type v.menu_filename 3600) ∧
      (∀ d, v.logo_data = some d → 0 < d.size →
        serve_logo venues slug = .file d v.logo_content_type v.logo_filename 86400)) ∧
    (venues.find? (fun u => u.slug == slug && u.active) = some v →
      v.subscription_status ≠ "active" → v.subscription_status ≠ "trialing" →
      capture_page venues slug = .paymentRequired) := by
  constructor
  · intro hf
    constructor
    · intro d hd hpos
      simp [serve_menu, hf, hd, hpos]
    · intro d hd hpos
      simp [serve_logo, hf, hd, hpos]
  · intro hf h1 h2
    simp [capture_page, hf, h1, h2]

/-- A concrete stored blob for the serving witness. -/
def servedBlob : FileData := ⟨3, fun _ => 1⟩

/-- A canceled, deactivated venue that still stores a menu and a logo. -/
def canceledVenue : Venue :=
  { id := 7, slug := "dead", name := "D", email := "d@x.com",
    subscription_status := "canceled", active := false,
    menu_data := some servedBlob, menu_filename := some "m.pdf",
    menu_content_type := some "application/pdf",
    logo_data := some servedBlob, logo_filename := some "l.png",
    logo_content_type := some "image/png" }

/-- An active-flagged venue whose subscription is past due. -/
def pastDueVenue : Venue :=
  { id := 8, slug := "due", name := "E", email := "e@x.com",
    subscription_status := "past_due", active := true }

/-- Claim C10 witness: the canceled, deactivated venue's menu and logo are
still served, while the past-due venue's capture page answers 402. -/
theorem C10_public_serving_ignores_billing_state_witness :
    serve_menu [canceledVenue, pastDueVenue] "dead"
      = .file servedBlob (some "application/pdf") (some "m.pdf") 3600 ∧
    serve_logo [canceledVenue, pastDueVenue] "dead"
      = .file servedBlob (some "image/png") (some "l.png") 86400 ∧
    capture_page [canceledVenue, pastDueVenue] "due" = .paymentRequired := by
  have h := C10_public_serving_ignores_billing_state [canceledVenue, pastDueVenue] "dead"
    canceledVenue
  have h' := C10_public_serving_ignores_billing_state [canceledVenue, pastDueVenue] "due"
    pastDueVenue
  exact ⟨(h.1 rfl).1 servedBlob rfl (by decide), (h.1 rfl).2 servedBlob rfl (by decide),
    h'.2 rfl (by decide) (by decide)⟩

/-- Claim C3: a checkout.session.completed event whose customer already has
a venue is a no-op; otherwise a venue is created with status `trialing`
when a subscription id is carried and `active` otherwise; replaying the
same event twice leaves exactly one venue for that customer. -/
theorem C3_checkout_completed_idempotent (slug : String)
    (customer mdName mdEmail custEmail subscription : Option String) (s : Store) :
    (∀ w, s.venues.find? (fun v => v.stripe_customer_id == customer) = some w →
      handle_checkout_completed slug customer mdName mdEmail custEmail subscription s = s) ∧
    (s.venues.find? (fun v => v.stripe_customer_id == customer) = none →
      ∃ nv, (handle_checkout_completed slug customer mdName mdEmail custEmail subscription s).venues
          = s.venues ++ [nv] ∧
        nv.stripe_customer_id = customer ∧
        nv.stripe_subscription_id = subscription ∧
        nv.subscription_status = (if pyTruthy subscription then "trialing" else "active") ∧
        nv.active = true) ∧
    (s.venues.find? (fun v => v.stripe_customer_id == customer) = none →
      handle_checkout_completed slug customer mdName mdEmail custEmail subscription
          (handle_checkout_completed slug customer mdName mdEmail custEmail subscription s)
        = handle_checkout_completed slug customer mdName mdEmail custEmail subscription s ∧
      ((handle_checkout_completed slug customer mdName mdEmail custEmail subscription s).venues.filter
          (fun v => v.stripe_customer_id == customer)).length = 1 ∧
      (handle_checkout_completed slug customer mdName mdEmail custEmail subscription s).venues.length
        = s.venues.length + 1) := by
  have hcreate : s.venues.find? (fun v => v.stripe_customer_id == customer) = none →
      ∃ nv, (handle_checkout_completed slug customer mdName mdEmail custEmail
          subscription s).venues = s.venues ++ [nv] ∧
        nv.stripe_customer_id = customer ∧
        nv.stripe_subscription_id = subscription ∧
        nv.subscription_status = (if pyTruthy subscription then "trialing" else "active") ∧
        nv.active = true := by
    intro h
    refine ⟨{ id := s.nextId, slug := slug, name := mdName.getD "New Venue",
              email := mdEmail.getD (custEmail.getD ""), stripe_customer_id := customer,
              stripe_subscription_id := subscription,
              subscription_status :=
                if pyTruthy subscription then "trialing" else "active" },
      ?_, rfl, rfl, rfl, rfl⟩
    simp [handle_checkout_completed, h]
  refine ⟨?_, hcreate, ?_⟩
  · intro w hw
    simp [handle_checkout_completed, hw]
  · intro h
    obtain ⟨nv, hvenues, hc, _, _, _⟩ := hcreate h
    have hfind : (handle_checkout_completed slug customer mdName mdEmail custEmail
        subscription s).venues.find? (fun v => v.stripe_customer_id == customer)
        = some nv := by
      rw [hvenues, find?_append_of_none _ h]
      simp [List.find?_cons, hc]
    refine ⟨?_, ?_, ?_⟩
    · generalize hS : handle_checkout_completed slug customer mdName mdEmail custEmail
        subscription s = s₁ at hfind ⊢
      simp only [handle_checkout_completed, hfind]
    · rw [hvenues, List.filter_append, List.filter_eq_nil_iff.mpr (by
        intro u hu
        have := List.find?_eq_none.mp h u hu
        exact this)]
      simp [List.filter, hc]
    · rw [hvenues]
      simp

/-- Claim C3 witness: one checkout event on an empty store creates one
venue in trialing status; replaying it changes nothing. -/
theorem C3_checkout_completed_idempotent_witness :
    handle_checkout_completed "sl" (some "cus_7") (some "N") (some "n@x.com") none (some "sub_7")
        (handle_checkout_completed "sl" (some "cus_7") (some "N") (some "n@x.com") none
          (some "sub_7") ⟨[], 0⟩)
      = handle_checkout_completed "sl" (some "cus_7") (some "N") (some "n@x.com") none
          (some "sub_7") ⟨[], 0⟩ ∧
    ((handle_checkout_completed "sl" (some "cus_7") (some "N") (some "n@x.com") none
        (some "sub_7") ⟨[], 0⟩).venues.filter
      (fun v => v.stripe_customer_id == some "cus_7")).length = 1 := by
  have h := (C3_checkout_completed_idempotent "sl" (some "cus_7") (some "N") (some "n@x.com")
    none (some "sub_7") ⟨[], 0⟩).2.2 rfl
  exact ⟨h.1, h.2.1⟩

/-- The fields of a venue that identify its payment provider records. -/
def providerIds (v : Venue) : Option String × Option String × Option String :=
  (v.stripe_customer_id, v.stripe_subscription_id, v.paypal_subscription_id)

/-- Claim C4: both cancellation handlers set `subscription_status=canceled`
and `active=false` on the matched venue, and no other handler transition
changes any venue's `active` flag (creations append a venue with
`active=true`). -/
theorem C4_cancellation_invariant (s : Store) :
    (∀ i w, s.venues.find? (fun v => v.stripe_subscription_id == some i) = some w →
      ∃ pre post, s.venues = pre ++ w :: post ∧
        (handle_subscription_deleted i s).venues
          = pre ++ { w with subscription_status := "canceled", active := false } :: post) ∧
    (∀ rid w, s.venues.find? (fun v => v.paypal_subscription_id == rid) = some w →
      ∃ pre post, s.venues = pre ++ w :: post ∧
        (paypal_webhook "BILLING.SUBSCRIPTION.CANCELLED" rid s).1.venues
          = pre ++ { w with subscription_status := "canceled", active := false } :: post) ∧
    (∀ i st, (handle_subscription_updated i st s).venues.map Venue.active
      = s.venues.map Venue.active) ∧
    (∀ c, (handle_payment_failed c s).venues.map Venue.active
      = s.venues.map Venue.active) ∧
    (∀ et rid, et ≠ "BILLING.SUBSCRIPTION.CANCELLED" →
      (paypal_webhook et rid s).1.venues.map Venue.active
        = s.venues.map Venue.active) ∧
    (∀ slug c n e ce sub,
      (handle_checkout_completed slug c n e ce sub s).venues.map Venue.active
          = s.venues.map Venue.active ∨
      (handle_checkout_completed slug c n e ce sub s).venues.map Venue.active
          = s.venues.map Venue.active ++ [true]) ∧
    (∀ newSlug vr dn de pn pe sid,
      (paypal_create_subscription newSlug vr dn de pn pe sid s).1.venues.map Venue.active
          = s.venues.map Venue.active ∨
      (paypal_create_subscription newSlug vr dn de pn pe sid s).1.venues.map Venue.active
          = s.venues.map Venue.active ++ [true]) := by
  refine ⟨?_, ?_, ?_, ?_, ?_, ?_, ?_⟩
  · intro i w hw
    obtain ⟨pre, post, hl, _, hup⟩ := updateFirst_split
      (fun v => v.stripe_subscription_id == some i)
      (fun v => { v with subscription_status := "canceled", active := false }) s.venues w hw
    exact ⟨pre, post, hl, hup⟩
  · intro rid w hw
    obtain ⟨pre, post, hl, _, hup⟩ := updateFirst_split
      (fun v => v.paypal_subscription_id == rid)
      (fun v => { v with subscription_status := "canceled", active := false }) s.venues w hw
    exact ⟨pre, post, hl, hup⟩
  · intro i st
    exact map_updateFirst Venue.active (fun v => v.stripe_subscription_id == some i)
      (fun v => { v with subscription_status := st }) (fun v => rfl) s.venues
  · intro c
    exact map_updateFirst Venue.active (fun v => v.stripe_customer_id == c)
      (fun v => { v with subscription_status := "past_due" }) (fun v => rfl) s.venues
  · intro et rid _
    by_cases h1 : et = "BILLING.SUBSCRIPTION.ACTIVATED"
    · subst h1
      exact map_updateFirst Venue.active (fun v => v.paypal_subscription_id == rid)
        (fun v => { v with subscription_status := "active" }) (fun v => rfl) s.venues
    · by_cases h3 : et = "BILLING.SUBSCRIPTION.SUSPENDED"
      · subst h3
        exact map_updateFirst Venue.active (fun v => v.paypal_subscription_id == rid)
          (fun v => { v with subscription_status := "past_due" }) (fun v => rfl) s.venues
      · rename_i h2
        simp [paypal_webhook, h1, h2, h3]
  · intro slug c n e ce sub
    cases hf : s.venues.find? (fun v => v.stripe_customer_id == c) with
    | some w => left; simp [handle_checkout_completed, hf]
    | none => right; simp [handle_checkout_completed, hf]
  · intro newSlug vr dn de pn pe sid
    cases hsid : pyTruthy sid with
    | false => left; simp [paypal_create_subscription, hsid]
    | true =>
      cases vr with
      | tokenFailure => left; simp [paypal_create_subscription, hsid]
      | httpError c => left; simp [paypal_create_subscription, hsid]
      | networkError => left; simp [paypal_create_subscription, hsid]
      | verified st se =>
        cases hf : s.venues.find?
            (fun v => v.paypal_subscription_id == some (sid.getD "")) with
        | some w => left; simp [paypal_create_subscription, hsid, hf]
        | none =>
          cases hf2 : s.venues.find?
              (fun v => pyLower v.email == email_to_use de pe se) with
          | some w =>
            left
            simp only [paypal_create_subscription, hsid, hf, hf2]
            simp only [Bool.not_true, if_neg Bool.false_ne_true]
            exact map_updateFirst Venue.active
              (fun v => pyLower v.email == email_to_use de pe se)
              (paypalAttach (sid.getD "") st) (fun v => rfl) s.venues
          | none => right; simp [paypal_create_subscription, hsid, hf, hf2]

/-- A venue with an active Stripe subscription (for the C4 witness). -/
def stripeSubVenue : Venue :=
  { id := 3, slug := "s3", name := "S", email := "s@x.com",
    stripe_customer_id := some "cus_3", stripe_subscription_id := some "sub_1",
    subscription_status := "active" }

/-- Claim C4 witness: deleting the matched Stripe subscription on a
one-venue store yields `status=canceled ∧ active=false`. -/
theorem C4_cancellation_invariant_witness :
    (handle_subscription_deleted "sub_1" ⟨[stripeSubVenue], 4⟩).venues
      = [{ stripeSubVenue with subscription_status := "canceled", active := false }] := by
  obtain ⟨pre, post, h1, h2⟩ :=
    (C4_cancellation_invariant ⟨[stripeSubVenue], 4⟩).1 "sub_1" stripeSubVenue rfl
  cases pre with
  | nil =>
    have hpost : post = [] := by
      simpa using h1.symm
    subst hpost
    simpa using h2
  | cons p ps =>
    have hlen := congrArg List.length h1
    simp at hlen

/-- Claim C1: identity resolution of a verified PayPal create-subscription
request, in priority order — (1) a venue holding this exact
`paypal_subscription_id` is reused with the store unchanged; (2) otherwise
an email-matched venue gets the PayPal id attached, its provider forced to
`paypal` and its status set to `trialing` when the reported status is
APPROVAL_PENDING or ACTIVE and `active` otherwise; (3) otherwise a fresh
venue is created with status `trialing` and provider `paypal`; and calling
the operation twice with the same subscription id returns the same venue
id both times. -/
theorem C1_paypal_identity_resolution (newSlug : String)
    (status subscriberEmail dn de pn pe : Option String) (sid : String) (s : Store)
    (hsid : sid ≠ "") :
    (∀ w, s.venues.find? (fun v => v.paypal_subscription_id == some sid) = some w →
      paypal_create_subscription newSlug (.verified status subscriberEmail) dn de pn pe
        (some sid) s = (s, .success w.id "/dashboard")) ∧
    (s.venues.find? (fun v => v.paypal_subscription_id == some sid) = none →
      ∀ w, s.venues.find? (fun v => pyLower v.email == email_to_use de pe subscriberEmail)
          = some w →
        (paypal_create_subscription newSlug (.verified status subscriberEmail) dn de pn pe
            (some sid) s).2 = .success w.id "/dashboard" ∧
        ∃ pre post, s.venues = pre ++ w :: post ∧
          (∀ u ∈ pre, (pyLower u.email == email_to_use de pe subscriberEmail) = false) ∧
          (paypal_create_subscription newSlug (.verified status subscriberEmail) dn de pn pe
              (some sid) s).1.venues = pre ++ paypalAttach sid status w :: post) ∧
    (s.venues.find? (fun v => v.paypal_subscription_id == some sid) = none →
      s.venues.find? (fun v => pyLower v.email == email_to_use de pe subscriberEmail) = none →
      (paypal_create_subscription newSlug (.verified status subscriberEmail) dn de pn pe
          (some sid) s).1.venues
        = s.venues ++ [{ id := s.nextId, slug := newSlug,
                         name := pyOr dn (pn.getD "New Venue"),
                         email := email_to_use de pe subscriberEmail,
                         paypal_subscription_id := some sid,
                         subscription_status := "trialing",
                         payment_provider := "paypal" }] ∧
      (paypal_create_subscription newSlug (.verified status subscriberEmail) dn de pn pe
          (some sid) s).2 = .success s.nextId "/signup/success/paypal") ∧
    (∀ newSlug₂ status₂ se₂ dn₂ de₂ pn₂ pe₂ id₁ red₁,
      (paypal_create_subscription newSlug (.verified status subscriberEmail) dn de pn pe
          (some sid) s).2 = .success id₁ red₁ →
      (paypal_create_subscription newSlug₂ (.verified status₂ se₂) dn₂ de₂ pn₂ pe₂ (some sid)
          (paypal_create_subscription newSlug (.verified status subscriberEmail) dn de pn pe
            (some sid) s).1).2 = .success id₁ "/dashboard") := by
  have hT : pyTruthy (some sid) = true := by
    simp [pyTruthy, hsid]
  have hreuse : ∀ (t : Store) w,
      t.venues.find? (fun v => v.paypal_subscription_id == some sid) = some w →
      ∀ nS st₂ se₂ dn₂ de₂ pn₂ pe₂,
        paypal_create_subscription nS (.verified st₂ se₂) dn₂ de₂ pn₂ pe₂ (some sid) t
          = (t, .success w.id "/dashboard") := by
    intro t w hw nS st₂ se₂ dn₂ de₂ pn₂ pe₂
    simp [paypal_create_subscription, hT, hw]
  refine ⟨fun w hw => hreuse s w hw newSlug status subscriberEmail dn de pn pe, ?_, ?_, ?_⟩
  · intro h1 w hw
    obtain ⟨pre, post, hl, hpre, hup⟩ := updateFirst_split
      (fun v => pyLower v.email == email_to_use de pe subscriberEmail)
      (paypalAttach sid status) s.venues w hw
    constructor
    · simp [paypal_create_subscription, hT, h1, hw]
    · exact ⟨pre, post, hl, hpre, by simp [paypal_create_subscription, hT, h1, hw, hup]⟩
  · intro h1 h2
    constructor
    · simp [paypal_create_subscription, hT, h1, h2]
    · simp [paypal_create_subscription, hT, h1, h2]
  · intro newSlug₂ status₂ se₂ dn₂ de₂ pn₂ pe₂ id₁ red₁ hres
    cases h1 : s.venues.find? (fun v => v.paypal_subscription_id == some sid) with
    | some w =>
      have hfirst := hreuse s w h1 newSlug status subscriberEmail dn de pn pe
      rw [hfirst] at hres ⊢
      have hres' : PaypalResult.success w.id "/dashboard" = .success id₁ red₁ := hres
      injection hres' with hid hred
      rw [← hid]
      exact congrArg Prod.snd (hreuse s w h1 newSlug₂ status₂ se₂ dn₂ de₂ pn₂ pe₂)
    | none =>
      have hallp : ∀ u ∈ s.venues, (u.paypal_subscription_id == some sid) = false := by
        intro u hu
        have := List.find?_eq_none.mp h1 u hu
        exact Bool.not_eq_true _ ▸ Bool.of_not_eq_true this
      cases h2 : s.venues.find?
          (fun v => pyLower v.email == email_to_use de pe subscriberEmail) with
      | some w =>
        obtain ⟨pre, post, hl, hpre, hup⟩ := updateFirst_split
          (fun v => pyLower v.email == email_to_use de pe subscriberEmail)
          (paypalAttach sid status) s.venues w h2
        have hfirst : paypal_create_subscription newSlug (.verified status subscriberEmail)
            dn de pn pe (some sid) s
            = ({ s with
                  venues := updateFirst
                    (fun v => pyLower v.email == email_to_use de pe subscriberEmail)
                    (paypalAttach sid status) s.venues },
               .success w.id "/dashboard") := by
          simp [paypal_create_subscription, hT, h1, h2]
        rw [hfirst] at hres ⊢
        have hres' : PaypalResult.success w.id "/dashboard" = .success id₁ red₁ := hres
        injection hres' with hid hred
        have hfind2 : (updateFirst
            (fun v => pyLower v.email == email_to_use de pe subscriberEmail)
            (paypalAttach sid status) s.venues).find?
              (fun v => v.paypal_subscription_id == some sid)
            = some (paypalAttach sid status w) := by
          rw [hup]
          refine find?_middle _ pre (paypalAttach sid status w) post ?_ ?_
          · intro u hu
            exact hallp u (by rw [hl]; exact List.mem_append_left _ hu)
          · simp [paypalAttach]
        have hsecond := hreuse
          ({ s with
              venues := updateFirst
                (fun v => pyLower v.email == email_to_use de pe subscriberEmail)
                (paypalAttach sid status) s.venues })
          (paypalAttach sid status w) hfind2 newSlug₂ status₂ se₂ dn₂ de₂ pn₂ pe₂
        rw [← hid]
        exact congrArg Prod.snd hsecond
      | none =>
        have hfirst : paypal_create_subscription newSlug (.verified status subscriberEmail)
            dn de pn pe (some sid) s
            = ({ venues := s.venues
                  ++ [{ id := s.nextId, slug := newSlug,
                        name := pyOr dn (pn.getD "New Venue"),
                        email := email_to_use de pe subscriberEmail,
                        paypal_subscription_id := some sid,
                        subscription_status := "trialing",
                        payment_provider := "paypal" }],
                 nextId := s.nextId + 1 },
               .success s.nextId "/signup/success/paypal") := by
          simp [paypal_create_subscription, hT, h1, h2]
        rw [hfirst] at hres ⊢
        have hres' : PaypalResult.success s.nextId "/signup/success/paypal"
            = .success id₁ red₁ := hres
        injection hres' with hid hred
        have hfind2 : List.find? (fun v => v.paypal_subscription_id == some sid)
            (s.venues
              ++ [({ id := s.nextId, slug := newSlug,
                     name := pyOr dn (pn.getD "New Venue"),
                     email := email_to_use de pe subscriberEmail,
                     paypal_subscription_id := some sid,
                     subscription_status := "trialing",
                     payment_provider := "paypal" } : Venue)])
            = some { id := s.nextId, slug := newSlug,
                     name := pyOr dn (pn.getD "New Venue"),
                     email := email_to_use de pe subscriberEmail,
                     paypal_subscription_id := some sid,
                     subscription_status := "trialing",
                     payment_provider := "paypal" } := by
          rw [find?_append_of_none _ h1]
          simp [List.find?_cons]
        have hsecond := hreuse
          ({ venues := s.venues
              ++ [{ id := s.nextId, slug := newSlug,
                    name := pyOr dn (pn.getD "New Venue"),
                    email := email_to_use de pe subscriberEmail,
                    paypal_subscription_id := some sid,
                    subscription_status := "trialing",
                    payment_provider := "paypal" }],
             nextId := s.nextId + 1 })
          _ hfind2 newSlug₂ status₂ se₂ dn₂ de₂ pn₂ pe₂
        rw [← hid]
        exact congrArg Prod.snd hsecond

/-- Claim C1 witness: the spec's scenario — subscription `I-ABC123`,
email `a@b.com`, provider-reported status ACTIVE — creates a venue with
`subscription_status=trialing` and `payment_provider=paypal` on an empty
store, and a second call with the same subscription id returns the same
venue id. -/
theorem C1_paypal_identity_resolution_witness :
    (paypal_create_subscription "sl" (.verified (some "ACTIVE") none) (some "Cafe")
        (some "a@b.com") none none (some "I-ABC123") ⟨[], 0⟩).1.venues
      = [{ id := 0, slug := "sl", name := "Cafe", email := "a@b.com",
           paypal_subscription_id := some "I-ABC123",
           subscription_status := "trialing", payment_provider := "paypal" }] ∧
    (paypal_create_subscription "sl" (.verified (some "ACTIVE") none) (some "Cafe")
        (some "a@b.com") none none (some "I-ABC123") ⟨[], 0⟩).2
      = .success 0 "/signup/success/paypal" ∧
    (paypal_create_subscription "sl2" (.verified (some "ACTIVE") none) (some "Cafe")
        (some "a@b.com") none none (some "I-ABC123")
        (paypal_create_subscription "sl" (.verified (some "ACTIVE") none) (some "Cafe")
          (some "a@b.com") none none (some "I-ABC123") ⟨[], 0⟩).1).2
      = .success 0 "/dashboard" := by
  have h := C1_paypal_identity_resolution "sl" (some "ACTIVE") none (some "Cafe")
    (some "a@b.com") none none "I-ABC123" ⟨[], 0⟩ (by decide)
  exact ⟨(h.2.2.1 rfl rfl).1, (h.2.2.1 rfl rfl).2,
    h.2.2.2 "sl2" (some "ACTIVE") none (some "Cafe") (some "a@b.com") none none 0
      "/signup/success/paypal" ((h.2.2.1 rfl rfl).2)⟩

/-- A Stripe-created venue used to exhibit the C5 violation. -/
def stripeVenue : Venue :=
  { id := 1, slug := "v1", name := "V1", email := "a@b.com",
    stripe_customer_id := some "cus_1", stripe_subscription_id := some "sub_1" }

/-- Claim C5 counterexample: a verified PayPal create-subscription whose
email matches the Stripe venue attaches `paypal_subscription_id` while the
Stripe identifiers stay populated, so the resulting venue has both
providers' identifier pairs set — the exclusivity invariant does not hold
after this engine operation. -/
theorem C5_counterexample :
    ((paypal_create_subscription "s2" (.verified (some "ACTIVE") none) (some "V1")
        (some "a@b.com") none none (some "I-9") ⟨[stripeVenue], 2⟩).1.venues.map
      (fun v => (v.paypal_subscription_id, v.stripe_customer_id, v.stripe_subscription_id)))
      = [(some "I-9", some "cus_1", some "sub_1")] ∧
    ¬ ExclusiveProviderIds (paypalAttach "I-9" (some "ACTIVE") stripeVenue) := by
  constructor
  · rfl
  · intro hx
    have := (hx.1 (by simp [paypalAttach])).1
    simp [paypalAttach, stripeVenue] at this

/-- Claim C5 amended: venues created by the engine carry at most one
provider's identifiers (checkout-created venues have no PayPal id,
PayPal-created venues have no Stripe ids), and all webhook status handlers
leave every venue's provider identifiers unchanged; but the PayPal
attach-by-email path sets `paypal_subscription_id` on the matched venue
while leaving its Stripe identifiers in place, so a Stripe venue matched by
email ends with both pairs populated. -/
theorem C5_amended_provider_id_discipline (s : Store) :
    (∀ slug c n e ce sub,
      s.venues.find? (fun v => v.stripe_customer_id == c) = none →
      (handle_checkout_completed slug c n e ce sub s).venues.map providerIds
        = s.venues.map providerIds ++ [(c, sub, none)]) ∧
    (∀ i st, (handle_subscription_updated i st s).venues.map providerIds
      = s.venues.map providerIds) ∧
    (∀ i, (handle_subscription_deleted i s).venues.map providerIds
      = s.venues.map providerIds) ∧
    (∀ c, (handle_payment_failed c s).venues.map providerIds
      = s.venues.map providerIds) ∧
    (∀ et rid, (paypal_webhook et rid s).1.venues.map providerIds
      = s.venues.map providerIds) ∧
    (∀ sid status w, providerIds (paypalAttach sid status w)
      = (w.stripe_customer_id, w.stripe_subscription_id, some sid)) ∧
    (∀ newSlug status se dn de pn pe (sid : String), sid ≠ "" →
      s.venues.find? (fun v => v.paypal_subscription_id == some sid) = none →
      s.venues.find? (fun v => pyLower v.email == email_to_use de pe se) = none →
      (paypal_create_subscription newSlug (.verified status se) dn de pn pe (some sid)
          s).1.venues.map providerIds
        = s.venues.map providerIds ++ [(none, none, some sid)]) := by
  refine ⟨?_, ?_, ?_, ?_, ?_, ?_, ?_⟩
  · intro slug c n e ce sub hf
    simp [handle_checkout_completed, hf, providerIds]
  · intro i st
    exact map_updateFirst providerIds (fun v => v.stripe_subscription_id == some i)
      (fun v => { v with subscription_status := st }) (fun v => rfl) s.venues
  · intro i
    exact map_updateFirst providerIds (fun v => v.stripe_subscription_id == some i)
      (fun v => { v with subscription_status := "canceled", active := false })
      (fun v => rfl) s.venues
  · intro c
    exact map_updateFirst providerIds (fun v => v.stripe_customer_id == c)
      (fun v => { v with subscription_status := "past_due" }) (fun v => rfl) s.venues
  · intro et rid
    by_cases h1 : et = "BILLING.SUBSCRIPTION.ACTIVATED"
    · subst h1
      exact map_updateFirst providerIds (fun v => v.paypal_subscription_id == rid)
        (fun v => { v with subscription_status := "active" }) (fun v => rfl) s.venues
    · by_cases h2 : et = "BILLING.SUBSCRIPTION.CANCELLED"
      · subst h2
        exact map_updateFirst providerIds (fun v => v.paypal_subscription_id == rid)
          (fun v => { v with subscription_status := "canceled", active := false })
          (fun v => rfl) s.venues
      · by_cases h3 : et = "BILLING.SUBSCRIPTION.SUSPENDED"
        · subst h3
          exact map_updateFirst providerIds (fun v => v.paypal_subscription_id == rid)
            (fun v => { v with subscription_status := "past_due" }) (fun v => rfl) s.venues
        · simp [paypal_webhook, h1, h2, h3]
  · intro sid status w
    rfl
  · intro newSlug status se dn de pn pe sid hsid h1 h2
    have hT : pyTruthy (some sid) = true := by
      simp [pyTruthy, hsid]
    simp [paypal_create_subscription, hT, h1, h2, providerIds]

/-- Claim C5 amended witness: a checkout on an empty store creates a
Stripe-only venue, and attaching PayPal identifiers to the Stripe venue
keeps its Stripe identifiers — both pairs populated. -/
theorem C5_amended_provider_id_discipline_witness :
    (handle_checkout_completed "sl" (some "cus_1") (some "N") (some "n@x.com") none
        (some "sub_9") ⟨[], 0⟩).venues.map providerIds
      = [(some "cus_1", some "sub_9", none)] ∧
    providerIds (paypalAttach "I-9" (some "ACTIVE") stripeVenue)
      = (some "cus_1", some "sub_1", some "I-9") := by
  have h := C5_amended_provider_id_discipline ⟨[], 0⟩
  have h' := C5_amended_provider_id_discipline ⟨[stripeVenue], 2⟩
  exact ⟨h.1 "sl" (some "cus_1") (some "N") (some "n@x.com") none (some "sub_9") rfl,
    h'.2.2.2.2.2.1 "I-9" (some "ACTIVE") stripeVenue⟩

/-- A 10,000,001-byte upload payload. -/
def bigBlob : FileData := ⟨10000001, fun _ => 0⟩

/-- A venue with no stored menu. -/
def freshVenue : Venue := { id := 0, slug := "v", name := "V", email := "e@x.com" }

/-- Claim C6 counterexample: a 10,000,001-byte menu upload is NOT rejected —
it is below the `10 * 1024 * 1024` ceiling, passes the size check and is
persisted into the venue's menu fields. -/
theorem C6_counterexample :
    bigBlob.size = 10000001 ∧
    freshVenue.menu_data = none ∧
    (upload_menu (fun _ => none) freshVenue "menu.pdf" bigBlob).2 = .ok ∧
    (upload_menu (fun _ => none) freshVenue "menu.pdf" bigBlob).1.menu_data = some bigBlob ∧
    (upload_menu (fun _ => none) freshVenue "menu.pdf" bigBlob).1.menu_content_type
      = some "application/pdf" :=
  ⟨rfl, rfl, by decide, rfl, rfl⟩

/-- Claim C6 amended: the menu ceiling is 10,485,760 bytes (10MB); every
upload strictly larger than that is rejected with the venue left entirely
unchanged (a 10,000,001-byte payload is below the ceiling and accepted). -/
theorem C6_amended_size_ceiling (conv : FileData → Option FileData) (venue : Venue)
    (filename : String) (d : FileData) (h : MAX_MENU_SIZE < d.size) :
    MAX_MENU_SIZE = 10485760 ∧ (upload_menu conv venue filename d).1 = venue := by
  refine ⟨rfl, ?_⟩
  unfold upload_menu
  split
  · rfl
  · split
    · rfl
    · rfl

/-- Claim C6 amended witness: a 10,485,761-byte upload leaves the venue
unchanged. -/
theorem C6_amended_size_ceiling_witness :
    MAX_MENU_SIZE = 10485760 ∧
    (upload_menu (fun _ => none) freshVenue "big.png" ⟨10485761, fun _ => 0⟩).1
      = freshVenue :=
  C6_amended_size_ceiling (fun _ => none) freshVenue "big.png" ⟨10485761, fun _ => 0⟩
    (by decide)

/-- A 2-byte blob carrying only the JPEG magic prefix. -/
def jpegStub : FileData := ⟨2, fun i => if i == 0 then 0xFF else 0xD8⟩

/-- Claim C9 counterexample: a file named photo.png whose bytes begin with
`FF D8` but is shorter than the 12-byte sniffing guard is stored with
content type `image/png` taken from the claimed extension, not
`image/jpeg`. -/
theorem C9_counterexample :
    allowed_menu_file "photo.png" = true ∧
    jpegStub.byteAt 0 = 0xFF ∧ jpegStub.byteAt 1 = 0xD8 ∧
    (upload_menu (fun _ => none) freshVenue "photo.png" jpegStub).1.menu_content_type
      = some "image/png" ∧
    (some "image/png" : Option String) ≠ some "image/jpeg" :=
  ⟨by decide, rfl, rfl, rfl, by decide⟩

/-- A PNG-magic blob. -/
def pngSample : FileData :=
  ⟨12, fun i => [0x89, 0x50, 0x4E, 0x47, 0x0D, 0x0A, 0x1A, 0x0A, 0, 0, 0, 0].getD i 0⟩

/-- A WEBP-magic blob (`RIFF....WEBP`). -/
def webpSample : FileData :=
  ⟨12, fun i => [0x52, 0x49, 0x46, 0x46, 0, 0, 0, 0, 0x57, 0x45, 0x42, 0x50].getD i 0⟩

/-- A PDF-magic blob (`%PDF-1.4`). -/
def pdfSample : FileData :=
  ⟨12, fun i => [0x25, 0x50, 0x44, 0x46, 0x2D, 0x31, 0x2E, 0x34, 0, 0, 0, 0].getD i 0⟩

/-- An HEIC blob: ftyp box with brand code `heic`. -/
def heicSample : FileData :=
  ⟨12, fun i => [0, 0, 0, 24, 0x66, 0x74, 0x79, 0x70, 0x68, 0x65, 0x69, 0x63].getD i 0⟩

/-- Claim C9 amended: for every menu upload with an allowed non-HEIC
extension, at least 12 bytes (the sniffing guard) and at most the size
ceiling, whose bytes begin with `FF D8`, the stored content type is
`image/jpeg`, determined by sniffing rather than the extension; and the
sniffer recognizes the PNG, WEBP, PDF and HEIC magic patterns. -/
theorem C9_amended_magic_byte_sniffing (conv : FileData → Option FileData) (venue : Venue)
    (filename : String) (d : FileData)
    (hallow : allowed_menu_file filename = true)
    (hh1 : extOf filename ≠ "heic") (hh2 : extOf filename ≠ "heif")
    (hmax : d.size ≤ MAX_MENU_SIZE) (h12 : 12 ≤ d.size)
    (hb0 : d.byteAt 0 = 0xFF) (hb1 : d.byteAt 1 = 0xD8) :
    detect_image_format d = some "jpeg" ∧
    (upload_menu conv venue filename d).1.menu_content_type = some "image/jpeg" ∧
    (upload_menu conv venue filename d).1.menu_data = some d ∧
    detect_image_format pngSample = some "png" ∧
    detect_image_format webpSample = some "webp" ∧
    detect_image_format pdfSample = some "pdf" ∧
    detect_image_format heicSample = some "heic" := by
  have hne : filename ≠ "" := by
    intro h0
    rw [h0] at hallow
    exact absurd hallow (by decide)
  have hdet : detect_image_format d = some "jpeg" := by
    unfold detect_image_format
    rw [if_neg (by omega), if_neg (by simp [hb0]), if_pos (by simp [hb0, hb1])]
  have hup : (upload_menu conv venue filename d).1.menu_content_type = some "image/jpeg" ∧
      (upload_menu conv venue filename d).1.menu_data = some d := by
    simp only [upload_menu, hdet]
    rw [if_neg (by simp [hne]), if_neg (by rw [hallow]; decide), if_neg (by omega),
      if_neg (by simp [hh1, hh2])]
    exact ⟨rfl, rfl⟩
  exact ⟨hdet, hup.1, hup.2, by decide, by decide, by decide, by decide⟩

/-- Claim C9 amended witness: a 12-byte `FF D8` payload named photo.png is
stored as `image/jpeg`. -/
theorem C9_amended_magic_byte_sniffing_witness :
    detect_image_format ⟨12, fun i => if i == 0 then 0xFF else if i == 1 then 0xD8 else 0⟩
      = some "jpeg" ∧
    (upload_menu (fun _ => none) freshVenue "photo.png"
        ⟨12, fun i => if i == 0 then 0xFF else if i == 1 then 0xD8 else 0⟩).1.menu_content_type
      = some "image/jpeg" := by
  have h := C9_amended_magic_byte_sniffing (fun _ => none) freshVenue "photo.png"
    ⟨12, fun i => if i == 0 then 0xFF else if i == 1 then 0xD8 else 0⟩
    (by decide) (by decide) (by decide) (by decide) (by decide) rfl rfl
  exact ⟨h.1, h.2.1⟩

end QRCapture
